import Mathlib

set_option autoImplicit false

namespace MetaFederate

/-!
Shallow embedding of the MetaFederate federation engine
(src/core/federation.py, src/core/crypto.py, src/core/protocol.py,
src/models/social.py, src/models/social_interactions.py).

Network and database effects are made explicit: DNS and HTTP outcomes are
oracle values passed in, the data store is an explicit state value, and
Python exceptions are modelled with Option / Except.
-/

/-! ## Base64 (Python base64.b64encode / base64.b64decode, used by crypto.py)

Python's b64decode (with validate=False) discards characters outside the
base64 alphabet and padding, then requires well-formed four-character
groups; malformed remainders raise binascii.Error.  The model decodes
canonical groups and returns none where Python raises. -/

def b64Alphabet : List Char :=
  ['A','B','C','D','E','F','G','H','I','J','K','L','M',
   'N','O','P','Q','R','S','T','U','V','W','X','Y','Z',
   'a','b','c','d','e','f','g','h','i','j','k','l','m',
   'n','o','p','q','r','s','t','u','v','w','x','y','z',
   '0','1','2','3','4','5','6','7','8','9','+','/']

def b64char (n : Nat) : Char := b64Alphabet.getD n '/'

def b64indexAux : List Char → Char → Nat → Option Nat
  | [], _, _ => none
  | a :: as, c, i => if a = c then some i else b64indexAux as c (i + 1)

def b64index (c : Char) : Option Nat := b64indexAux b64Alphabet c 0

def isKeptB64 (c : Char) : Bool := b64Alphabet.contains c || c == '='

def b64encodeChars : List Nat → List Char
  | [] => []
  | [b1] => [b64char (b1 / 4), b64char ((b1 % 4) * 16), '=', '=']
  | [b1, b2] =>
      [b64char (b1 / 4), b64char ((b1 % 4) * 16 + b2 / 16),
       b64char ((b2 % 16) * 4), '=']
  | b1 :: b2 :: b3 :: rest =>
      b64char (b1 / 4) :: b64char ((b1 % 4) * 16 + b2 / 16) ::
      b64char ((b2 % 16) * 4 + b3 / 64) :: b64char (b3 % 64) ::
      b64encodeChars rest

def b64decodeAux : List Char → Option (List Nat)
  | [] => some []
  | c1 :: c2 :: c3 :: c4 :: rest =>
      match b64index c1, b64index c2 with
      | some s1, some s2 =>
          if c3 = '=' ∧ c4 = '=' ∧ rest = [] then
            some [s1 * 4 + s2 / 16]
          else if c4 = '=' ∧ rest = [] then
            match b64index c3 with
            | some s3 => some [s1 * 4 + s2 / 16, (s2 % 16) * 16 + s3 / 4]
            | none => none
          else
            match b64index c3, b64index c4 with
            | some s3, some s4 =>
                (b64decodeAux rest).map
                  (fun bs =>
                    (s1 * 4 + s2 / 16) :: ((s2 % 16) * 16 + s3 / 4) ::
                    ((s3 % 4) * 64 + s4) :: bs)
            | _, _ => none
      | _, _ => none
  | _ => none

def b64encode (bs : List Nat) : String := String.mk (b64encodeChars bs)

def b64decode (s : String) : Option (List Nat) :=
  b64decodeAux (s.data.filter isKeptB64)

theorem b64index_b64char {n : Nat} (h : n < 64) :
    b64index (b64char n) = some n := by
  have H : ∀ m : Fin 64, b64index (b64char m.val) = some m.val := by decide
  exact H ⟨n, h⟩

theorem b64char_ne_pad (n : Nat) : b64char n ≠ '=' := by
  rcases Nat.lt_or_ge n 64 with h | h
  · have H : ∀ m : Fin 64, b64char m.val ≠ '=' := by decide
    exact H ⟨n, h⟩
  · have hlen : b64Alphabet.length ≤ n := by
      have : b64Alphabet.length = 64 := rfl
      omega
    unfold b64char
    rw [List.getD_eq_default _ _ hlen]
    decide

theorem isKeptB64_b64char (n : Nat) : isKeptB64 (b64char n) = true := by
  rcases Nat.lt_or_ge n 64 with h | h
  · have H : ∀ m : Fin 64, isKeptB64 (b64char m.val) = true := by decide
    exact H ⟨n, h⟩
  · have hlen : b64Alphabet.length ≤ n := by
      have : b64Alphabet.length = 64 := rfl
      omega
    unfold isKeptB64 b64char
    rw [List.getD_eq_default _ _ hlen]
    decide

theorem isKeptB64_pad : isKeptB64 '=' = true := by decide

theorem filter_kept_encode (bs : List Nat) :
    (b64encodeChars bs).filter isKeptB64 = b64encodeChars bs := by
  induction bs using b64encodeChars.induct with
  | case1 => rfl
  | case2 b1 =>
      simp [b64encodeChars, List.filter, isKeptB64_b64char, isKeptB64_pad]
  | case3 b1 b2 =>
      simp [b64encodeChars, List.filter, isKeptB64_b64char, isKeptB64_pad]
  | case4 b1 b2 b3 rest ih =>
      simp [b64encodeChars, List.filter, isKeptB64_b64char, isKeptB64_pad] at ih ⊢
      exact ih

theorem b64decodeAux_encode (bs : List Nat) (h : ∀ b ∈ bs, b < 256) :
    b64decodeAux (b64encodeChars bs) = some bs := by
  induction bs using b64encodeChars.induct with
  | case1 => rfl
  | case2 b1 =>
      have hb1 : b1 < 256 := h b1 (by simp)
      have h1 : b1 / 4 < 64 := by omega
      have h2 : (b1 % 4) * 16 < 64 := by omega
      simp [b64encodeChars, b64decodeAux, b64index_b64char h1, b64index_b64char h2]
      omega
  | case3 b1 b2 =>
      have hb1 : b1 < 256 := h b1 (by simp)
      have hb2 : b2 < 256 := h b2 (by simp)
      have h1 : b1 / 4 < 64 := by omega
      have h2 : (b1 % 4) * 16 + b2 / 16 < 64 := by omega
      have h3 : (b2 % 16) * 4 < 64 := by omega
      simp [b64encodeChars, b64decodeAux, b64index_b64char h1,
            b64index_b64char h2, b64index_b64char h3, b64char_ne_pad]
      constructor
      · omega
      · omega
  | case4 b1 b2 b3 rest ih =>
      have hb1 : b1 < 256 := h b1 (by simp)
      have hb2 : b2 < 256 := h b2 (by simp)
      have hb3 : b3 < 256 := h b3 (by simp)
      have hrest : ∀ b ∈ rest, b < 256 := by
        intro b hb
        exact h b (by simp [hb])
      have h1 : b1 / 4 < 64 := by omega
      have h2 : (b1 % 4) * 16 + b2 / 16 < 64 := by omega
      have h3 : (b2 % 16) * 4 + b3 / 64 < 64 := by omega
      have h4 : b3 % 64 < 64 := by omega
      simp [b64encodeChars, b64decodeAux, b64index_b64char h1,
            b64index_b64char h2, b64index_b64char h3, b64index_b64char h4,
            b64char_ne_pad, ih hrest]
      refine ⟨by omega, by omega, by omega⟩

theorem b64_roundtrip (bs : List Nat) (h : ∀ b ∈ bs, b < 256) :
    b64decode (b64encode bs) = some bs := by
  unfold b64decode b64encode
  have hdata : (String.mk (b64encodeChars bs)).data = b64encodeChars bs := rfl
  rw [hdata, filter_kept_encode, b64decodeAux_encode bs h]

/-! ## Crypto module (crypto.py)

The hybrid scheme of Crypto.encrypt_message / Crypto.decrypt_message is
embedded with the external library primitives (RSA-OAEP wrap/unwrap, the
Fernet symmetric cipher, Fernet key generation) as parameters; their
randomness is threaded as explicit seed arguments.  The base64 layer and
the composition are the code under verification. -/

structure EncryptedData where
  ciphertext : String
  encrypted_key : String
  algorithm : String
  version : String

structure CryptoPrims where
  rsa_encrypt : String → Nat → List Nat → List Nat
  rsa_decrypt : String → List Nat → Option (List Nat)
  fernet_generate_key : Nat → List Nat
  fernet_encrypt : List Nat → Nat → String → List Nat
  fernet_decrypt : List Nat → List Nat → Option String

def encrypt_message (P : CryptoPrims) (plaintext public_key_pem : String)
    (keySeed encSeed wrapSeed : Nat) : EncryptedData :=
  let symmetric_key := P.fernet_generate_key keySeed
  let ciphertext := P.fernet_encrypt symmetric_key encSeed plaintext
  let encrypted_key := P.rsa_encrypt public_key_pem wrapSeed symmetric_key
  { ciphertext := b64encode ciphertext
    encrypted_key := b64encode encrypted_key
    algorithm := "RSA-OAEP+AES256"
    version := "1.0" }

def decrypt_message (P : CryptoPrims) (encrypted_data : EncryptedData)
    (private_key_pem : String) : Option String := do
  let encrypted_key ← b64decode encrypted_data.encrypted_key
  let symmetric_key ← P.rsa_decrypt private_key_pem encrypted_key
  let ciphertext ← b64decode encrypted_data.ciphertext
  P.fernet_decrypt symmetric_key ciphertext

/-- C5: for every plaintext and every key pair for which the RSA wrap and
the symmetric Fernet primitives invert each other — the library contract
for a valid pair returned by generate_key_pair — decrypting an encrypted
message returns the original plaintext. -/
theorem claim_C5_encrypt_decrypt_roundtrip
    (P : CryptoPrims) (pub priv plaintext : String) (ks es ws : Nat)
    (hkeypair : ∀ s k, P.rsa_decrypt priv (P.rsa_encrypt pub s k) = some k)
    (hfernet : ∀ k s p, P.fernet_decrypt k (P.fernet_encrypt k s p) = some p)
    (hct : ∀ b ∈ P.fernet_encrypt (P.fernet_generate_key ks) es plaintext, b < 256)
    (hek : ∀ b ∈ P.rsa_encrypt pub ws (P.fernet_generate_key ks), b < 256) :
    decrypt_message P (encrypt_message P plaintext pub ks es ws) priv
      = some plaintext := by
  unfold encrypt_message decrypt_message
  simp only []
  rw [b64_roundtrip _ hek]
  simp only [Option.bind_eq_bind, Option.some_bind]
  rw [hkeypair]
  simp only [Option.some_bind]
  rw [b64_roundtrip _ hct]
  simp only [Option.some_bind]
  exact hfernet _ _ _

def toyPrims : CryptoPrims where
  rsa_encrypt := fun _ _ k => k.reverse
  rsa_decrypt := fun _ w => some w.reverse
  fernet_generate_key := fun _ => [7, 7]
  fernet_encrypt := fun _ _ p => p.data.map Char.toNat
  fernet_decrypt := fun _ bs => some (String.mk (bs.map Char.ofNat))

theorem claim_C5_witness :
    decrypt_message toyPrims (encrypt_message toyPrims "hi" "PUB" 0 0 0) "PRIV"
      = some "hi" := by
  refine claim_C5_encrypt_decrypt_roundtrip toyPrims "PUB" "PRIV" "hi" 0 0 0
    ?_ ?_ ?_ ?_
  · intro s k
    simp [toyPrims]
  · intro k s p
    have hmap : ∀ l : List Char, (l.map Char.toNat).map Char.ofNat = l := by
      intro l
      induction l with
      | nil => rfl
      | cons c cs ih => simp [ih]
    simp [toyPrims, hmap]
  · decide
  · decide

/-! ## Crypto.verify_signature (crypto.py lines 149-171)

In the source, load_pem_public_key and base64.b64decode run before the
try/except; only public_key.verify is guarded.  The PEM parser and the
RSA verification predicate of the external library are parameters. -/

structure SigEnv where
  loadPublicKey : String → Option Nat
  verifyOk : Nat → String → List Nat → Bool

def verify_signature (env : SigEnv) (data signature public_key_pem : String) :
    Except String Bool :=
  match env.loadPublicKey public_key_pem with
  | none => .error "ValueError"
  | some public_key =>
      match b64decode signature with
      | none => .error "binascii.Error"
      | some signature_bytes => .ok (env.verifyOk public_key data signature_bytes)

def env0 : SigEnv where
  loadPublicKey := fun pem => if pem = "VALID-PEM" then some 1 else none
  verifyOk := fun _ _ _ => false

/-- C6 (counterexample): verify_signature does throw — a malformed base64
signature ("abc", whose length is not a multiple of four) raises
binascii.Error and a malformed public key raises ValueError, both escaping
the function; only the genuine verification failure returns false. -/
theorem claim_C6_counterexample :
    verify_signature env0 "hello" "abc" "VALID-PEM" = .error "binascii.Error" ∧
    verify_signature env0 "hello" "dGVzdA==" "garbage" = .error "ValueError" ∧
    verify_signature env0 "hello" "dGVzdA==" "VALID-PEM" = .ok false := by
  refine ⟨rfl, rfl, rfl⟩

/-- C6 (amended): verify_signature returns false rather than raising only
for verification failures (wrong key or tampered data); a public key that
fails PEM loading or a signature that fails base64 decoding raises an
error, because those two steps precede the try block. -/
theorem claim_C6_verify_signature_amended
    (env : SigEnv) (data sig pem : String) :
    (env.loadPublicKey pem = none →
      verify_signature env data sig pem = .error "ValueError") ∧
    (∀ k, env.loadPublicKey pem = some k → b64decode sig = none →
      verify_signature env data sig pem = .error "binascii.Error") ∧
    (∀ k bs, env.loadPublicKey pem = some k → b64decode sig = some bs →
      verify_signature env data sig pem = .ok (env.verifyOk k data bs)) := by
  refine ⟨?_, ?_, ?_⟩
  · intro h
    simp [verify_signature, h]
  · intro k hk hb
    simp [verify_signature, hk, hb]
  · intro k bs hk hb
    simp [verify_signature, hk, hb]

theorem claim_C6_witness :
    verify_signature env0 "hello" "abc" "VALID-PEM" = .error "binascii.Error" :=
  (claim_C6_verify_signature_amended env0 "hello" "abc" "VALID-PEM").2.1
    1 rfl rfl

/-! ## Federation discovery (federation.py, Federation.discover_server)

DNS and HTTP outcomes are oracle values.  In the source, the inner
try/except around the SRV lookup catches only dns.resolver.NoAnswer;
every other exception (NXDOMAIN, timeout, HTTP connection errors)
propagates to the outer handler, which returns None. -/

inductive DnsSrvResult where
  | records (recs : List (String × Nat))
  | noAnswer
  | otherError
deriving DecidableEq

inductive HttpGetResult where
  | response (status : Nat) (server_url : Option String)
  | netError
deriving DecidableEq

structure DiscoveryOracle where
  srv : DnsSrvResult
  wellKnown : HttpGetResult

inductive NetOp where
  | srvLookup (name : String)
  | httpGet (url : String)
  | httpPost (url : String)
deriving DecidableEq

def srvQueryName (d : String) : String := "_metafederate._tcp." ++ d

def wellKnownUrl (d : String) : String :=
  "https://" ++ d ++ "/.well-known/metafederate"

def wellKnownResult (target_domain : String) (h : HttpGetResult) : Option String :=
  match h with
  | .netError => none
  | .response status server_url =>
      if status = 200 then server_url
      else some ("https://federate." ++ target_domain)

def discover_server (target_domain : String) (o : DiscoveryOracle) : Option String :=
  match o.srv with
  | .otherError => none
  | .noAnswer => wellKnownResult target_domain o.wellKnown
  | .records [] => wellKnownResult target_domain o.wellKnown
  | .records ((t, p) :: _) => some ("https://" ++ t ++ ":" ++ toString p)

def discover_server_trace (target_domain : String) (o : DiscoveryOracle) :
    Option String × List NetOp :=
  match o.srv with
  | .otherError => (none, [.srvLookup (srvQueryName target_domain)])
  | .records ((t, p) :: _) =>
      (some ("https://" ++ t ++ ":" ++ toString p),
       [.srvLookup (srvQueryName target_domain)])
  | .records [] =>
      (wellKnownResult target_domain o.wellKnown,
       [.srvLookup (srvQueryName target_domain),
        .httpGet (wellKnownUrl target_domain)])
  | .noAnswer =>
      (wellKnownResult target_domain o.wellKnown,
       [.srvLookup (srvQueryName target_domain),
        .httpGet (wellKnownUrl target_domain)])

theorem discover_server_trace_fst (d : String) (o : DiscoveryOracle) :
    (discover_server_trace d o).1 = discover_server d o := by
  rcases o with ⟨srv, wk⟩
  cases srv with
  | records recs =>
      cases recs with
      | nil => rfl
      | cons hd tl => rcases hd with ⟨t, p⟩; rfl
  | noAnswer => rfl
  | otherError => rfl

/-- Modelled from the spec: the claim's reading of Resolve, in which every
tier failure (NXDOMAIN, timeout, HTTP error, missing server_url) is
swallowed and the next tier attempted. -/
def discover_server_spec (target_domain : String) (o : DiscoveryOracle) :
    Option String :=
  let tier1 : Option String :=
    match o.srv with
    | .records ((t, p) :: _) => some ("https://" ++ t ++ ":" ++ toString p)
    | _ => none
  let tier2 : Option String :=
    match o.wellKnown with
    | .response 200 (some u) => some u
    | _ => none
  tier1.orElse (fun _ =>
    tier2.orElse (fun _ => some ("https://federate." ++ target_domain)))

/-- C2 (counterexample): a DNS failure other than NoAnswer (NXDOMAIN or a
timeout) is not swallowed — discover_server returns none immediately even
though the well-known tier would have produced the endpoint the claim
requires. -/
theorem claim_C2_counterexample :
    discover_server "example.com"
      ⟨.otherError, .response 200 (some "https://fed.example.com")⟩ = none ∧
    discover_server_spec "example.com"
      ⟨.otherError, .response 200 (some "https://fed.example.com")⟩
      = some "https://fed.example.com" := ⟨rfl, rfl⟩

/-- C2 (amended): discover_server falls through to the well-known tier only
on a DNS NoAnswer (or an empty SRV answer) and to the
https://federate.domain fallback only on a non-200 HTTP status; any other
DNS failure or an HTTP connection failure yields none at once, and a 200
well-known response without server_url yields none instead of the
fallback. -/
theorem claim_C2_discover_server_amended
    (d : String) (o : DiscoveryOracle) :
    (o.srv = .otherError → discover_server d o = none) ∧
    (∀ t p recs, o.srv = .records ((t, p) :: recs) →
      discover_server d o = some ("https://" ++ t ++ ":" ++ toString p)) ∧
    (o.srv = .noAnswer ∨ o.srv = .records [] →
      (o.wellKnown = .netError → discover_server d o = none) ∧
      (∀ u, o.wellKnown = .response 200 u → discover_server d o = u) ∧
      (∀ s u, o.wellKnown = .response s u → s ≠ 200 →
        discover_server d o = some ("https://federate." ++ d))) := by
  refine ⟨?_, ?_, ?_⟩
  · intro h
    simp [discover_server, h]
  · intro t p recs h
    simp [discover_server, h]
  · intro h
    refine ⟨?_, ?_, ?_⟩
    · intro hw
      rcases h with h | h <;> simp [discover_server, h, hw, wellKnownResult]
    · intro u hw
      rcases h with h | h <;> simp [discover_server, h, hw, wellKnownResult]
    · intro s u hw hs
      rcases h with h | h <;> simp [discover_server, h, hw, wellKnownResult, hs]

theorem claim_C2_witness :
    discover_server "example.com" ⟨.noAnswer, .response 200 none⟩ = none :=
  ((claim_C2_discover_server_amended "example.com"
      ⟨.noAnswer, .response 200 none⟩).2.2 (Or.inl rfl)).2.1 none rfl

/-! ## Discovery caching (claim C9)

The Federation object of the source holds only domain, timeout, the shared
HTTP session and a logger — no resolution cache.  The state value below
mirrors the cache-relevant fields; discover_server returns it untouched. -/

structure Federation where
  domain : String
  timeout : Nat
deriving DecidableEq

def discover_server_st (fed : Federation) (target_domain : String)
    (o : DiscoveryOracle) : Option String × Federation × List NetOp :=
  ((discover_server_trace target_domain o).1, fed,
   (discover_server_trace target_domain o).2)

def resolve_twice (fed : Federation) (d : String) (o1 o2 : DiscoveryOracle) :
    Option String × Option String × List NetOp :=
  let r1 := discover_server_st fed d o1
  let r2 := discover_server_st r1.2.1 d o2
  (r1.1, r2.1, r1.2.2 ++ r2.2.2)

/-- C9 (counterexample): after a successful resolution of example.com, a
second discover_server call for the same domain issues the SRV lookup
again — the operation log of the two calls holds two lookups, so the
second call is not answered from any cache. -/
theorem claim_C9_counterexample :
    resolve_twice ⟨"local.example", 10⟩ "example.com"
        ⟨.records [("fed.example.com", 8443)], .netError⟩
        ⟨.records [("fed.example.com", 8443)], .netError⟩
      = (some "https://fed.example.com:8443",
         some "https://fed.example.com:8443",
         [.srvLookup "_metafederate._tcp.example.com",
          .srvLookup "_metafederate._tcp.example.com"]) := rfl

/-- C9 (amended): discover_server keeps no cache — every call leaves the
Federation state unchanged and performs a fresh SRV lookup first,
regardless of any earlier successful resolution. -/
theorem claim_C9_no_cache (fed : Federation) (d : String)
    (o : DiscoveryOracle) :
    (discover_server_st fed d o).2.1 = fed ∧
    (discover_server_trace d o).2.head?
      = some (.srvLookup (srvQueryName d)) := by
  refine ⟨rfl, ?_⟩
  rcases o with ⟨srv, wk⟩
  cases srv with
  | records recs =>
      cases recs with
      | nil => rfl
      | cons hd tl => rcases hd with ⟨t, p⟩; rfl
  | noAnswer => rfl
  | otherError => rfl

/-! ## Delivery (federation.py, Federation.deliver_activity)

The source resolves the endpoint, then issues exactly one POST to
server_url/inbox; 200 and 202 count as success, anything else — a status
outside that set or a raised exception — returns False at once.  The
oracle maps attempt indices to POST outcomes so a retry policy would be
observable; retry_attempts and retry_delay come from config.py. -/

inductive PostResult where
  | status (code : Nat)
  | netError
deriving DecidableEq

structure DeliveryOracle where
  discovery : DiscoveryOracle
  post : Nat → PostResult

def retry_attempts_default : Nat := 3

def retry_delay_default : Nat := 5

def postSucceeds (r : PostResult) : Bool :=
  match r with
  | .status code => code == 200 || code == 202
  | .netError => false

def deliver_activity (target_domain : String) (o : DeliveryOracle) :
    Bool × List NetOp :=
  match discover_server target_domain o.discovery with
  | none => (false, (discover_server_trace target_domain o.discovery).2)
  | some server_url =>
      (postSucceeds (o.post 0),
       (discover_server_trace target_domain o.discovery).2
         ++ [.httpPost (server_url ++ "/inbox")])

/-- Modelled from the spec: the claim's delivery loop, making up to
retry_attempts attempts against the target and succeeding if any attempt
returns 200 or 202. -/
def deliver_activity_spec (retry_attempts : Nat) (target_domain : String)
    (o : DeliveryOracle) : Bool :=
  match discover_server target_domain o.discovery with
  | none => false
  | some _ => (List.range retry_attempts).any (fun i => postSucceeds (o.post i))

/-- C3 (counterexample): with the configured default of three attempts the
claimed retry policy would succeed on the second attempt, but
deliver_activity performs exactly one POST and reports failure
immediately; retry_attempts and retry_delay are never consulted. -/
theorem claim_C3_counterexample :
    deliver_activity "example.com"
        ⟨⟨.records [("fed.example.com", 8443)], .netError⟩,
         fun i => if i = 0 then .netError else .status 200⟩
      = (false,
         [.srvLookup "_metafederate._tcp.example.com",
          .httpPost "https://fed.example.com:8443/inbox"]) ∧
    deliver_activity_spec retry_attempts_default "example.com"
        ⟨⟨.records [("fed.example.com", 8443)], .netError⟩,
         fun i => if i = 0 then .netError else .status 200⟩
      = true := by
  constructor
  · rfl
  · rfl

/-- C3 (amended): deliver_activity makes exactly one POST attempt per
target — failure to resolve yields false with no POST, and otherwise the
single outcome of the first attempt decides the result, with no retry, no
delay between attempts and no dependence on the configured
retry_attempts/retry_delay values. -/
theorem claim_C3_deliver_single_attempt (target_domain : String)
    (o : DeliveryOracle) :
    (discover_server target_domain o.discovery = none →
      deliver_activity target_domain o
        = (false, (discover_server_trace target_domain o.discovery).2)) ∧
    (∀ url, discover_server target_domain o.discovery = some url →
      deliver_activity target_domain o
        = (postSucceeds (o.post 0),
           (discover_server_trace target_domain o.discovery).2
             ++ [.httpPost (url ++ "/inbox")])) := by
  constructor
  · intro h
    unfold deliver_activity
    rw [h]
  · intro url h
    unfold deliver_activity
    rw [h]

theorem claim_C3_witness :
    deliver_activity "example.com"
        ⟨⟨.records [("fed.example.com", 8443)], .netError⟩, fun _ => .status 202⟩
      = (true,
         [.srvLookup "_metafederate._tcp.example.com",
          .httpPost "https://fed.example.com:8443/inbox"]) :=
  (claim_C3_deliver_single_attempt "example.com"
      ⟨⟨.records [("fed.example.com", 8443)], .netError⟩,
       fun _ => .status 202⟩).2 "https://fed.example.com:8443" rfl

/-! ## Inbound activities (federation.py, Federation.receive_activity)

The signature hook _validate_signature of the source is a placeholder
returning True, and _is_domain_blocked a placeholder returning False; the
four recognized types all reach placeholder processors answering
{"status": "processed"}. -/

abbrev StrDict := List (String × String)

def dictGet (d : StrDict) (k : String) : Option String :=
  (d.find? (fun kv => kv.1 == k)).map (fun kv => kv.2)

def validate_signature (_activity : StrDict) : Bool := true

def is_domain_blocked (_domain : String) : Bool := false

def actorDomain (actor : String) : String :=
  (actor.splitOn "@").getLastD actor

def receive_activity (activity : StrDict) : Except String StrDict :=
  if validate_signature activity = false then
    .ok [("error", "Invalid signature")]
  else
    match dictGet activity "actor" with
    | none => .error "KeyError: actor"
    | some actor =>
        if is_domain_blocked (actorDomain actor) then
          .ok [("error", "Domain blocked")]
        else
          match dictGet activity "type" with
          | some t =>
              if t = "Follow" ∨ t = "Like" ∨ t = "Create" ∨ t = "Announce" then
                .ok [("status", "processed")]
              else
                .ok [("error", "Unsupported activity type")]
          | none => .ok [("error", "Unsupported activity type")]

/-- C1 (code bug): an inbound Follow whose signature is corrupted is not
rejected — receive_activity returns {"status": "processed"} for every
signature value, and no input at all can produce the Invalid signature
rejection, because the source's _validate_signature is a placeholder that
always returns True. -/
theorem claim_C1_code_bug (sig : String) (a : StrDict) :
    receive_activity
        [("type", "Follow"), ("actor", "mallory@evil.example"),
         ("signature", sig)]
      = .ok [("status", "processed")] ∧
    receive_activity a ≠ .ok [("error", "Invalid signature")] := by
  constructor
  · rfl
  · unfold receive_activity
    simp only [validate_signature]
    cases dictGet a "actor" with
    | none => simp
    | some actor =>
        simp only [is_domain_blocked]
        cases dictGet a "type" with
        | none => simp
        | some t =>
            by_cases h : t = "Follow" ∨ t = "Like" ∨ t = "Create" ∨ t = "Announce"
            · simp [h]
            · simp [h]

/-! ## Social interactions (social_interactions.py, SocialInteractions.like_content)

The two tables touched by like_content are explicit state:
content_interactions rows and federated_content rows with their
like_count.  The uuid4 value is a parameter; Python truthiness of the
fetched id (None and the empty string are falsy) is modelled by
pyTruthy. -/

structure InteractionRow where
  id : String
  content_id : String
  user_address : String
  interaction_type : String
  interaction_data : String
deriving DecidableEq

structure ContentRow where
  id : String
  like_count : Int
deriving DecidableEq

structure InteractionsDB where
  content_interactions : List InteractionRow
  federated_content : List ContentRow
deriving DecidableEq

def findLike (db : InteractionsDB) (content_id user_address : String) :
    Option String :=
  (db.content_interactions.find? (fun r =>
    r.content_id == content_id && r.user_address == user_address &&
    r.interaction_type == "like")).map (fun r => r.id)

def pyTruthy (o : Option String) : Bool :=
  match o with
  | none => false
  | some s => !(s == "")

structure LikeResult where
  status : String
  like_id : String
deriving DecidableEq

def like_content (db : InteractionsDB) (user_address content_id : String)
    (reaction : String) (freshId : String) : LikeResult × InteractionsDB :=
  let existing := findLike db content_id user_address
  if pyTruthy existing then
    ({ status := "already_liked", like_id := existing.getD "" }, db)
  else
    let row : InteractionRow :=
      { id := freshId, content_id := content_id, user_address := user_address,
        interaction_type := "like",
        interaction_data := "reaction:" ++ reaction }
    ({ status := "liked", like_id := freshId },
     { content_interactions := db.content_interactions ++ [row],
       federated_content := db.federated_content.map (fun c =>
         if c.id == content_id then { c with like_count := c.like_count + 1 }
         else c) })

def likeCount (db : InteractionsDB) (content_id : String) : Option Int :=
  (db.federated_content.find? (fun c => c.id == content_id)).map
    (fun c => c.like_count)

theorem like_content_eq (db : InteractionsDB)
    (user cid reaction freshId : String) :
    like_content db user cid reaction freshId =
      if pyTruthy (findLike db cid user) then
        (⟨"already_liked", (findLike db cid user).getD ""⟩, db)
      else
        (⟨"liked", freshId⟩,
         { content_interactions := db.content_interactions ++
             [{ id := freshId, content_id := cid, user_address := user,
                interaction_type := "like",
                interaction_data := "reaction:" ++ reaction }],
           federated_content := db.federated_content.map (fun cr =>
             if cr.id == cid then { cr with like_count := cr.like_count + 1 }
             else cr) }) := rfl

/-- C7: when the actor has no stored like for the content yet, the first
like_content call answers status liked and raises that content's
like_count by exactly one, and a second call by the same actor on the same
content answers status already_liked with the first call's id and leaves
the whole store unchanged. -/
theorem claim_C7_like_twice (db : InteractionsDB)
    (user cid reaction r2 freshId freshId2 : String) (c : Int)
    (hnew : findLike db cid user = none)
    (hfresh : freshId ≠ "")
    (hcount : likeCount db cid = some c) :
    (like_content db user cid reaction freshId).1
      = ⟨"liked", freshId⟩ ∧
    likeCount (like_content db user cid reaction freshId).2 cid
      = some (c + 1) ∧
    (like_content (like_content db user cid reaction freshId).2
        user cid r2 freshId2).1
      = ⟨"already_liked", freshId⟩ ∧
    (like_content (like_content db user cid reaction freshId).2
        user cid r2 freshId2).2
      = (like_content db user cid reaction freshId).2 := by
  have hfalse : pyTruthy (findLike db cid user) = false := by
    rw [hnew]; rfl
  have e1 : like_content db user cid reaction freshId =
      (⟨"liked", freshId⟩,
       { content_interactions := db.content_interactions ++
           [{ id := freshId, content_id := cid, user_address := user,
              interaction_type := "like",
              interaction_data := "reaction:" ++ reaction }],
         federated_content := db.federated_content.map (fun cr =>
           if cr.id == cid then { cr with like_count := cr.like_count + 1 }
           else cr) }) := by
    rw [like_content_eq, hfalse]
    simp
  rw [e1]
  -- the like row inserted by the first call is found by the second call
  have hfind2 : findLike
      { content_interactions := db.content_interactions ++
          [{ id := freshId, content_id := cid, user_address := user,
             interaction_type := "like",
             interaction_data := "reaction:" ++ reaction }],
        federated_content := db.federated_content.map (fun cr =>
          if cr.id == cid then { cr with like_count := cr.like_count + 1 }
          else cr) } cid user = some freshId := by
    unfold findLike at hnew ⊢
    simp only [List.find?_append]
    have hn : db.content_interactions.find? (fun r =>
        r.content_id == cid && r.user_address == user &&
        r.interaction_type == "like") = none := by
      cases hf : db.content_interactions.find? (fun r =>
          r.content_id == cid && r.user_address == user &&
          r.interaction_type == "like") with
      | none => rfl
      | some r => rw [hf] at hnew; simp at hnew
    rw [hn]
    simp [List.find?]
  -- like_count of the content rises by exactly one
  have hcount1 : likeCount
      { content_interactions := db.content_interactions ++
          [{ id := freshId, content_id := cid, user_address := user,
             interaction_type := "like",
             interaction_data := "reaction:" ++ reaction }],
        federated_content := db.federated_content.map (fun cr =>
          if cr.id == cid then { cr with like_count := cr.like_count + 1 }
          else cr) } cid = some (c + 1) := by
    unfold likeCount at hcount ⊢
    simp only [List.find?_map]
    have hpred : ((fun cr : ContentRow => cr.id == cid) ∘ (fun cr : ContentRow =>
        if cr.id == cid then { cr with like_count := cr.like_count + 1 }
        else cr)) = (fun cr : ContentRow => cr.id == cid) := by
      funext cr
      by_cases hid : (cr.id == cid) = true
      · simp only [Function.comp_apply, if_pos hid]
      · simp only [Function.comp_apply, if_neg hid]
    rw [hpred]
    cases hf : db.federated_content.find? (fun cr => cr.id == cid) with
    | none => rw [hf] at hcount; simp at hcount
    | some cr =>
        rw [hf] at hcount
        simp at hcount
        have hid0 := List.find?_some hf
        have hid : (cr.id == cid) = true := hid0
        have hid2 : cr.id = cid := by simpa using hid
        simp [hid2]
        omega
  have htruthy2 : pyTruthy (some freshId) = true := by
    unfold pyTruthy
    simp [hfresh]
  refine ⟨rfl, hcount1, ?_, ?_⟩
  · rw [like_content_eq, hfind2, htruthy2]
    simp
  · rw [like_content_eq, hfind2, htruthy2]
    simp

def likeDB0 : InteractionsDB :=
  { content_interactions := [], federated_content := [⟨"post1", 0⟩] }

theorem claim_C7_witness :
    (like_content likeDB0 "alice@a.example" "post1" "♥" "uuid-1").1
      = ⟨"liked", "uuid-1"⟩ ∧
    likeCount (like_content likeDB0 "alice@a.example" "post1" "♥" "uuid-1").2
        "post1" = some 1 ∧
    (like_content (like_content likeDB0 "alice@a.example" "post1" "♥" "uuid-1").2
        "alice@a.example" "post1" "♥" "uuid-2").1
      = ⟨"already_liked", "uuid-1"⟩ ∧
    (like_content (like_content likeDB0 "alice@a.example" "post1" "♥" "uuid-1").2
        "alice@a.example" "post1" "♥" "uuid-2").2
      = (like_content likeDB0 "alice@a.example" "post1" "♥" "uuid-1").2 := by
  have h := claim_C7_like_twice likeDB0 "alice@a.example" "post1" "♥" "♥"
    "uuid-1" "uuid-2" 0 rfl (by decide) rfl
  simpa using h

/-! ## Social graph (social.py, SocialGraph.follow)

The user_relationships table is an explicit row list; db.execute of the
upsert is modelled directly and its asyncpg status string always contains
INSERT or UPDATE, so the stored-path result is True. -/

structure RelRow where
  user_address : String
  target_user : String
  relationship_type : String
deriving DecidableEq

inductive RelationshipStatus where
  | FOLLOWING
  | FOLLOWED_BY
  | BLOCKING
  | BLOCKED_BY
  | MUTUAL
  | NONE
  | REQUESTED
  | MUTED
deriving DecidableEq

def findRel (rels : List RelRow) (u t : String) : Option RelRow :=
  rels.find? (fun r => r.user_address == u && r.target_user == t)

def relForward (rels : List RelRow) (u t : String) :
    Option RelationshipStatus :=
  match findRel rels u t with
  | some r =>
      if r.relationship_type == "follow" then some .FOLLOWING
      else if r.relationship_type == "block" then some .BLOCKING
      else none
  | none => none

def relBackward (rels : List RelRow) (u t : String) :
    Option RelationshipStatus :=
  match findRel rels t u with
  | some r =>
      if r.relationship_type == "follow" then some .FOLLOWED_BY
      else if r.relationship_type == "block" then some .BLOCKED_BY
      else none
  | none => none

def get_relationship (rels : List RelRow) (user_address target_address : String) :
    RelationshipStatus :=
  if user_address == target_address then .NONE
  else
    match relForward rels user_address target_address with
    | some s => s
    | none =>
        match relBackward rels user_address target_address with
        | some s => s
        | none => .NONE

def follow (rels : List RelRow) (user_address target_address : String) :
    Bool × List RelRow :=
  if user_address == target_address then (false, rels)
  else if get_relationship rels user_address target_address = .FOLLOWING ∨
          get_relationship rels user_address target_address = .BLOCKING then
    (false, rels)
  else
    (true,
     if (findRel rels user_address target_address).isSome then
       rels.map (fun r =>
         if r.user_address == user_address && r.target_user == target_address
         then { r with relationship_type := "follow" } else r)
     else rels ++ [⟨user_address, target_address, "follow"⟩])

/-- C8 (counterexample): a re-follow returns False — the very value follow
returns for a rejected request — not a distinct success outcome: following
an already-followed target yields (false, unchanged store) while a fresh
follow yields true, so callers reading the Bool see the re-follow as a
failure. -/
theorem claim_C8_counterexample :
    follow [⟨"alice@a.example", "bob@b.example", "follow"⟩]
        "alice@a.example" "bob@b.example"
      = (false, [⟨"alice@a.example", "bob@b.example", "follow"⟩]) ∧
    (follow [] "alice@a.example" "bob@b.example").1 = true ∧
    (follow [⟨"alice@a.example", "bob@b.example", "block"⟩]
        "alice@a.example" "bob@b.example").1 = false := ⟨rfl, rfl, rfl⟩

/-- C8 (amended): when the actor already follows the target, follow leaves
the stored relationships unchanged but returns False, the same failure
value a blocked or self follow returns, rather than a distinct no-op
success. -/
theorem claim_C8_refollow_noop (rels : List RelRow) (u t : String)
    (h : get_relationship rels u t = .FOLLOWING) :
    follow rels u t = (false, rels) := by
  have hne : (u == t) = false := by
    cases hbe : (u == t) with
    | true =>
        exfalso
        unfold get_relationship at h
        rw [hbe] at h
        simp at h
    | false => rfl
  unfold follow
  rw [hne]
  simp [h]

theorem claim_C8_witness :
    follow [⟨"carol@c.example", "dave@d.example", "follow"⟩]
        "carol@c.example" "dave@d.example"
      = (false, [⟨"carol@c.example", "dave@d.example", "follow"⟩]) :=
  claim_C8_refollow_noop _ _ _ rfl

/-! ## Protocol handler (protocol.py, MetaFederateProtocol.handle_activity)

Activity values are nested Python objects (strings and dicts).  Item
access raises KeyError — whose str() is the quoted key — and .get on a
non-dict raises; the try/except of handle_activity catches every handler
exception and answers an error dict.  The data-store callbacks awaited by
the handlers (absent attributes in the source, hence AttributeError at
run time there) are a parameter record, so the catch-all is proved for
every store behaviour including the raising one.  The dispatch mirrors
the source's if/elif chain: COMMENT, QUOTE and THREAD all alias the type
string Create, so Create always reaches the comment handler, and the
Block branch calls the undefined _handle_block attribute. -/

inductive PyVal where
  | str (s : String)
  | dict (fields : List (String × PyVal))

abbrev PyDict := List (String × PyVal)

def pyGet (d : PyDict) (k : String) : Option PyVal :=
  (d.find? (fun kv => kv.1 == k)).map (fun kv => kv.2)

def keyErrMsg (k : String) : String := "'" ++ k ++ "'"

def getItem (d : PyDict) (k : String) : Except String PyVal :=
  match pyGet d k with
  | some v => .ok v
  | none => .error (keyErrMsg k)

def getItemV (v : PyVal) (k : String) : Except String PyVal :=
  match v with
  | .dict fs => getItem fs k
  | .str _ => .error "string indices must be integers"

def pyGetV (v : PyVal) (k : String) : Except String (Option PyVal) :=
  match v with
  | .dict fs => .ok (pyGet fs k)
  | .str _ => .error "'str' object has no attribute 'get'"

structure ProtocolStore where
  add_follower : PyVal → PyVal → Except String Bool
  store_like : PyVal → PyVal → PyVal → Except String String
  remove_like : PyVal → PyVal → Except String Bool
  store_comment : PyVal → Option PyVal → PyVal → Except String String
  store_quote : PyVal → Option PyVal → PyVal → Except String String
  store_repost : PyVal → PyVal → PyVal → Except String String
  create_thread : PyVal → PyVal → Except String String
  store_message : PyVal → Except String String

def can_interact (_actor : PyVal) (_target : Option PyVal) : Bool := true

def is_blocked (_actor _target : PyVal) : Bool := false

def handle_follow (st : ProtocolStore) (a : PyDict) : Except String PyDict := do
  let actor ← getItem a "actor"
  let target ← getItem a "object"
  if is_blocked actor target then
    pure [("status", .str "blocked")]
  else do
    let success ← st.add_follower target actor
    pure [("status", .str (if success then "success" else "failed"))]

def handle_like (st : ProtocolStore) (a : PyDict) : Except String PyDict := do
  let actor ← getItem a "actor"
  let target_content ← getItem a "object"
  let reaction := (pyGet a "reaction").getD (.str "❤")
  if can_interact actor (some target_content) then do
    let like_id ← st.store_like actor target_content reaction
    pure [("status", .str "liked"), ("like_id", .str like_id)]
  else
    pure [("status", .str "not_allowed")]

def handle_unlike (st : ProtocolStore) (a : PyDict) : Except String PyDict := do
  let actor ← getItem a "actor"
  let target_content ← getItem a "object"
  let success ← st.remove_like actor target_content
  pure [("status", .str (if success then "unliked" else "not_found"))]

def handle_comment (st : ProtocolStore) (a : PyDict) : Except String PyDict := do
  let actor ← getItem a "actor"
  let comment_data ← getItem a "object"
  let target_content ← pyGetV comment_data "inReplyTo"
  if can_interact actor target_content then do
    let comment_id ← st.store_comment actor target_content comment_data
    pure [("status", .str "commented"), ("comment_id", .str comment_id)]
  else
    pure [("status", .str "not_allowed")]

def handle_quote (st : ProtocolStore) (a : PyDict) : Except String PyDict := do
  let actor ← getItem a "actor"
  let quote_data ← getItem a "object"
  let original_content ← pyGetV quote_data "quoteOf"
  if can_interact actor original_content then do
    let quote_id ← st.store_quote actor original_content quote_data
    pure [("status", .str "quoted"), ("quote_id", .str quote_id)]
  else
    pure [("status", .str "not_allowed")]

def handle_repost (st : ProtocolStore) (a : PyDict) : Except String PyDict := do
  let actor ← getItem a "actor"
  let original_content ← getItem a "object"
  let repost_text := (pyGet a "content").getD (.str "")
  if can_interact actor (some original_content) then do
    let repost_id ← st.store_repost actor original_content repost_text
    pure [("status", .str "reposted"), ("repost_id", .str repost_id)]
  else
    pure [("status", .str "not_allowed")]

def handle_thread (st : ProtocolStore) (a : PyDict) : Except String PyDict := do
  let actor ← getItem a "actor"
  let thread_data ← getItem a "object"
  let td_type ← pyGetV thread_data "type"
  match td_type with
  | some (.str "Thread") => do
      let thread_id ← st.create_thread actor thread_data
      pure [("status", .str "thread_created"), ("thread_id", .str thread_id)]
  | _ => pure [("status", .str "invalid_thread_data")]

def handle_message (st : ProtocolStore) (a : PyDict) : Except String PyDict := do
  let message_data ← getItem a "object"
  let sender ← getItemV message_data "from"
  let receiver ← getItemV message_data "to"
  if is_blocked sender receiver then
    pure [("status", .str "blocked")]
  else do
    let message_id ← st.store_message message_data
    pure [("status", .str "delivered"), ("message_id", .str message_id)]

def typeTag (a : PyDict) : Option String :=
  match pyGet a "type" with
  | some (.str s) => some s
  | _ => none

def recognizedTypes : List String :=
  ["Follow", "Block", "Like", "Undo", "Create", "Announce", "Message"]

def handle_activity_body (st : ProtocolStore) (a : PyDict) :
    Except String PyDict :=
  match typeTag a with
  | some s =>
      if s = "Follow" then handle_follow st a
      else if s = "Block" then
        .error "'MetaFederateProtocol' object has no attribute '_handle_block'"
      else if s = "Like" then handle_like st a
      else if s = "Undo" then handle_unlike st a
      else if s = "Create" then handle_comment st a
      else if s = "Announce" then handle_repost st a
      else if s = "Message" then handle_message st a
      else .ok [("error", .str "Unsupported activity type")]
  | none => .ok [("error", .str "Unsupported activity type")]

def handle_activity (st : ProtocolStore) (a : PyDict) : PyDict :=
  match handle_activity_body st a with
  | .ok d => d
  | .error e => [("error", .str e)]

def unrecognizedType (a : PyDict) : Prop :=
  match typeTag a with
  | some s => s ∉ recognizedTypes
  | none => True

/-- C10: handle_activity is total — every handler exception, for any
behaviour of the data-store callbacks, is caught and reported as an
error-message dict (a Follow without an actor field, for instance, yields
the KeyError text as the error), and an absent, non-string or
unrecognized activity type yields the Unsupported activity type error. -/
theorem claim_C10_handle_activity_total (st : ProtocolStore) (a : PyDict) :
    (unrecognizedType a →
      handle_activity st a = [("error", .str "Unsupported activity type")]) ∧
    (∀ e, handle_activity_body st a = .error e →
      handle_activity st a = [("error", .str e)]) ∧
    handle_activity st [("type", .str "Follow")]
      = [("error", .str (keyErrMsg "actor"))] := by
  refine ⟨?_, ?_, rfl⟩
  · intro h
    unfold unrecognizedType at h
    unfold handle_activity handle_activity_body
    cases hT : typeTag a with
    | none => rfl
    | some s =>
        rw [hT] at h
        simp only [recognizedTypes, List.mem_cons, List.not_mem_nil,
          not_or, or_false] at h
        obtain ⟨h1, h2, h3, h4, h5, h6, h7⟩ := h
        simp [h1, h2, h3, h4, h5, h6, h7]
  · intro e he
    unfold handle_activity
    rw [he]

def missingStore : ProtocolStore where
  add_follower := fun _ _ =>
    .error "'MetaFederateProtocol' object has no attribute '_add_follower'"
  store_like := fun _ _ _ =>
    .error "'MetaFederateProtocol' object has no attribute '_store_like'"
  remove_like := fun _ _ =>
    .error "'MetaFederateProtocol' object has no attribute '_remove_like'"
  store_comment := fun _ _ _ =>
    .error "'MetaFederateProtocol' object has no attribute '_store_comment'"
  store_quote := fun _ _ _ =>
    .error "'MetaFederateProtocol' object has no attribute '_store_quote'"
  store_repost := fun _ _ _ =>
    .error "'MetaFederateProtocol' object has no attribute '_store_repost'"
  create_thread := fun _ _ =>
    .error "'MetaFederateProtocol' object has no attribute '_create_thread'"
  store_message := fun _ =>
    .error "'MetaFederateProtocol' object has no attribute '_store_message'"

theorem claim_C10_witness :
    handle_activity missingStore [("type", .str "Mention")]
      = [("error", .str "Unsupported activity type")] :=
  (claim_C10_handle_activity_total missingStore
      [("type", .str "Mention")]).1
    (by intro hmem; simp [recognizedTypes] at hmem)

end MetaFederate
